import Mathlib

/-!
Verification development for the `pep-dorsa` TypeScript client
(`src/src/index.ts`, a payment-gateway client class `PepDorsa`).

The source file contains two revisions of the class, concatenated:
revision 1 (lines 1-250: `authenticate`, `purchase`, `multiAccPurchase`,
`confirm`) and revision 2 (lines 251-815: the same plus `bill`,
`directCharge`, `pinCharge`, `internetCharge`).  Where the two revisions
agree the embedding has a single definition; where they differ (the
error label of `confirm`) both variants are embedded.

Modelling choices:
* `Date.now()` is a `Nat` parameter `now` (milliseconds).
* Each HTTP exchange is an oracle parameter: the authentication call is
  an `Except String AuthResponse` (transport error or parsed body), an
  operation call is an `Except String (Option (Envelope α))` (`Option`
  because the source guards on a falsy `res.data`).
* A method returns an `OpResult`: the authentication request it issued
  (if any), the operation request it issued (if any, with URL, bearer
  token and JSON body), the settled promise, and the final client state.
* JSON bodies are association lists `List (String × Option JVal)`; a
  `none` value is a key whose value is `undefined` in the object
  literal (dropped by JSON serialization, i.e. sent "unset").
-/

/-- Constructor configuration of the client (interface `Config`). -/
structure Config where
  baseUrl : String
  terminalNumber : Int
  username : String
  password : String
deriving Repr, DecidableEq

/-- Mutable instance state of `PepDorsa`: the private `config` plus the
token cache pair `cachedToken`/`tokenExpiry` (lines 70-74). -/
structure ClientState where
  config : Config
  cachedToken : String
  tokenExpiry : Nat
deriving Repr, DecidableEq

/-- Fresh client state as produced by the constructor:
`cachedToken = ''`, `tokenExpiry = 0`. -/
def mkClient (cfg : Config) : ClientState :=
  { config := cfg, cachedToken := "", tokenExpiry := 0 }

/-- A JSON value as used in the request bodies of this client. -/
inductive JVal where
  | str (v : String)
  | num (v : Int)
  | strList (v : List String)
deriving Repr, DecidableEq

/-- A JSON object body: keys in literal order, `none` meaning the key is
bound to `undefined` (hence unset on the wire). -/
abbrev JBody := List (String × Option JVal)

def jstr (v : String) : Option JVal := some (JVal.str v)

def jnum (v : Int) : Option JVal := some (JVal.num v)

def jostr (v : Option String) : Option JVal := v.map JVal.str

def joarr (v : Option (List String)) : Option JVal := v.map JVal.strList

def jarr (v : List String) : Option JVal := some (JVal.strList v)

/-- Parsed body of the authentication response.  The source destructures
only `resultCode` and `token` (line 108); `expireAt` models the expiry
field the wire envelope may carry, which the source never reads. -/
structure AuthResponse where
  resultMsg : String
  resultCode : Int
  token : Option String
  expireAt : Option Nat
deriving Repr, DecidableEq

/-- The authentication HTTP request (line 96-106): URL and credentials. -/
structure AuthSent where
  path : String
  username : String
  password : String
deriving Repr, DecidableEq

/-- Error with which `authenticate` rejects: a transport failure, or the
`throwError('getToken', res.data)` of line 115 carrying the raw body. -/
inductive AuthErr where
  | transport (e : String)
  | api (method : String) (body : AuthResponse)
deriving Repr, DecidableEq

deriving instance DecidableEq for Except

/-- Outcome of one `authenticate` call: the request it issued (if any),
the settled promise, and the client state afterwards. -/
structure AuthResult where
  request : Option AuthSent
  result : Except AuthErr String
  state : ClientState
deriving Repr, DecidableEq

/-- Transport oracle for the authentication call. -/
abbrev AuthTransport := Except String AuthResponse

/-- Truthiness of the `token` field in JavaScript: present and not the
empty string. -/
def tokenPresent : Option String → Bool
  | some s => s != ""
  | none => false

/-- The cache-hit test of line 92: `this.cachedToken && this.tokenExpiry > now`. -/
def cacheValid (st : ClientState) (now : Nat) : Bool :=
  st.cachedToken != "" && decide (st.tokenExpiry > now)

/-- The fallback cache horizon of line 112: `5 * 60 * 1000` milliseconds. -/
def fiveMinutesMs : Nat := 5 * 60 * 1000

/-- The authentication request `authenticate` issues on a cache miss. -/
def authSentOf (st : ClientState) : AuthSent :=
  { path := st.config.baseUrl ++ "/token/getToken"
    username := st.config.username
    password := st.config.password }

/-- Embedding of `authenticate` (lines 89-121, identical in both
revisions).  On a cache hit the cached token is returned with no
request; otherwise the credential exchange is issued, and on
`resultCode === 0 && token` the cache pair is overwritten with the new
token and `now + 5` minutes, else the call rejects with the raw body,
leaving the state untouched. -/
def authenticate (st : ClientState) (now : Nat) (t : AuthTransport) : AuthResult :=
  if cacheValid st now then
    { request := none, result := Except.ok st.cachedToken, state := st }
  else
    match t with
    | Except.error e =>
      { request := some (authSentOf st), result := Except.error (AuthErr.transport e), state := st }
    | Except.ok res =>
      if res.resultCode == 0 && tokenPresent res.token then
        let tok := res.token.getD ""
        { request := some (authSentOf st)
          result := Except.ok tok
          state := { st with cachedToken := tok, tokenExpiry := now + fiveMinutesMs } }
      else
        { request := some (authSentOf st)
          result := Except.error (AuthErr.api "getToken" res)
          state := st }

/-- The uniform gateway envelope `{resultMsg, resultCode, data}`; `data`
is `Option` because the success branch returns it unvalidated and it may
be absent. -/
structure Envelope (α : Type) where
  resultMsg : String
  resultCode : Int
  data : Option α
deriving Repr, DecidableEq

/-- An operation HTTP request: target URL, the bearer token placed in the
`Authorization` header, and the JSON body. -/
structure SentRequest where
  path : String
  token : String
  body : JBody
deriving Repr, DecidableEq

/-- Error with which an operation call rejects: the propagated
`authenticate` rejection, a transport failure of its own call, or the
`throwError(name, res.data)` of its failure branch (`body = none` models
a falsy `res.data`). -/
inductive OpError (α : Type) where
  | auth (e : AuthErr)
  | transport (e : String)
  | api (method : String) (body : Option (Envelope α))
deriving Repr, DecidableEq

/-- Outcome of one operation call: the authentication request issued (if
any), the operation request issued (if any), the settled promise, and
the client state afterwards. -/
structure OpResult (α : Type) where
  authRequest : Option AuthSent
  opRequest : Option SentRequest
  result : Except (OpError α) (Option α)
  state : ClientState
deriving Repr, DecidableEq

/-- Transport oracle for an operation call. -/
abbrev OpTransport (α : Type) := Except String (Option (Envelope α))

/-- The HTTP requests of one operation call in issue order. -/
def OpResult.trace {α : Type} (o : OpResult α) : List (AuthSent ⊕ SentRequest) :=
  (match o.authRequest with
   | some a => [Sum.inl a]
   | none => []) ++
  (match o.opRequest with
   | some r => [Sum.inr r]
   | none => [])

/-- Settlement of an operation response, the
`if (res.data && res.data.resultCode === 0) return res.data.data; else this.throwError(name, res.data)`
tail every method shares: a transport failure rejects with the error, a
falsy body or a non-zero `resultCode` rejects with
`throwError(name, res.data)`, and success resolves with the unvalidated
`data` field. -/
def opSettle {α : Type} (name : String) (opT : OpTransport α) :
    Except (OpError α) (Option α) :=
  match opT with
  | Except.error e => Except.error (OpError.transport e)
  | Except.ok none => Except.error (OpError.api name none)
  | Except.ok (some env) =>
    if env.resultCode == 0 then Except.ok env.data
    else Except.error (OpError.api name (some env))

/-- The shared shape of every operation method of the source: obtain a
token via `authenticate` (propagating its rejection without issuing the
operation call), issue the operation `POST` with the token as bearer and
the given body, then settle the response with `opSettle`. -/
def runOp {α : Type} (st : ClientState) (now : Nat) (authT : AuthTransport)
    (opT : OpTransport α) (name path : String) (body : JBody) : OpResult α :=
  let a := authenticate st now authT
  match a.result with
  | Except.error e =>
    { authRequest := a.request, opRequest := none
      result := Except.error (OpError.auth e), state := a.state }
  | Except.ok tok =>
    { authRequest := a.request
      opRequest := some { path := path, token := tok, body := body }
      result := opSettle name opT
      state := a.state }

/-- The TypeScript numeric enum `Operator` of revision 2 (MCI = 0,
MTN = 1, RTL = 2).  Values are plain numbers at runtime, so any `Int`
can reach the `switch` statements. -/
def Operator.MCI : Int := 0

def Operator.MTN : Int := 1

def Operator.RTL : Int := 2

/-- Caller request of `purchase` (interface `PurchaseRequest`). -/
structure PurchaseRequest where
  invoice : String
  invoiceDate : String
  amount : Int
  callbackApi : String
  mobileNumber : String
  description : Option String
  payerMail : Option String
  payerName : Option String
  pans : Option (List String)
  nationalCode : Option String
  paymentCode : Option String
deriving Repr, DecidableEq

/-- Caller request of `multiAccPurchase` (interface `MultiAccPurchaseRequest`). -/
structure MultiAccPurchaseRequest where
  invoice : String
  invoiceDate : String
  amount : Int
  callbackApi : String
  mobileNumber : String
  description : Option String
  payerMail : Option String
  payerName : Option String
  pans : Option (List String)
  sharedValue : List String
  sheba : List String
  nationalCode : Option String
deriving Repr, DecidableEq

/-- Caller request of `bill` (interface `BillRequest`, revision 2). -/
structure BillRequest where
  invoice : String
  invoiceDate : String
  amount : Int
  callbackApi : String
  mobileNumber : String
  description : Option String
  payerMail : Option String
  payerName : Option String
  pans : Option (List String)
  nationalCode : Option String
  billId : String
  paymentId : String
deriving Repr, DecidableEq

/-- Caller request of `directCharge` (interface `DirectChargeRequest`). -/
structure DirectChargeRequest where
  invoice : String
  invoiceDate : String
  amount : Int
  callbackApi : String
  mobileNumber : String
  operator : Int
  description : Option String
  payerMail : Option String
  payerName : Option String
  pans : Option (List String)
  nationalCode : Option String
deriving Repr, DecidableEq

/-- Caller request of `pinCharge` (interface `PinChargeRequest`). -/
structure PinChargeRequest where
  invoice : String
  invoiceDate : String
  amount : Int
  callbackApi : String
  mobileNumber : String
  operator : Int
  description : Option String
  payerMail : Option String
  payerName : Option String
  pans : Option (List String)
  nationalCode : Option String
  count : Int
deriving Repr, DecidableEq

/-- Caller request of `internetCharge` (interface `InternetChargeRequest`). -/
structure InternetChargeRequest where
  invoice : String
  invoiceDate : String
  amount : Int
  callbackApi : String
  mobileNumber : String
  operator : Int
  description : Option String
  payerMail : Option String
  payerName : Option String
  pans : Option (List String)
  nationalCode : Option String
  productCode : String
deriving Repr, DecidableEq

/-- Caller request of `confirm`, `verify` and `reverse`
(interface `ConfirmRequest`). -/
structure ConfirmRequest where
  invoice : String
  urlId : String
deriving Repr, DecidableEq

/-- Success payload of the purchase family (`PurchaseResponse.data`). -/
structure PurchaseData where
  urlId : String
  url : String
deriving Repr, DecidableEq

/-- Success payload of `confirm` (`ConfirmResponse.data`). -/
structure ConfirmData where
  invoice : String
  referenceNumber : String
  trackId : String
  maskedCardNumber : String
  hashedCardNumber : String
  requestDate : String
  amount : Int
deriving Repr, DecidableEq

/-- JSON body of `purchase` (object literal, lines 140-155). -/
def purchaseBody (cfg : Config) (r : PurchaseRequest) : JBody :=
  [("invoice", jstr r.invoice),
   ("invoiceDate", jstr r.invoiceDate),
   ("amount", jnum r.amount),
   ("mobileNumber", jstr r.mobileNumber),
   ("callbackApi", jstr r.callbackApi),
   ("terminalNumber", jnum cfg.terminalNumber),
   ("serviceCode", jstr "8"),
   ("serviceType", jstr "PURCHASE"),
   ("description", jostr r.description),
   ("payerMail", jostr r.payerMail),
   ("payerName", jostr r.payerName),
   ("pans", joarr r.pans),
   ("nationalCode", jostr r.nationalCode),
   ("paymentCode", jostr r.paymentCode)]

/-- JSON body of `multiAccPurchase` (object literal, lines 190-206). -/
def multiAccPurchaseBody (cfg : Config) (r : MultiAccPurchaseRequest) : JBody :=
  [("invoice", jstr r.invoice),
   ("invoiceDate", jstr r.invoiceDate),
   ("amount", jnum r.amount),
   ("mobileNumber", jstr r.mobileNumber),
   ("callbackApi", jstr r.callbackApi),
   ("terminalNumber", jnum cfg.terminalNumber),
   ("serviceCode", jstr "9"),
   ("serviceType", jstr "MULTIACCPURCHASE"),
   ("description", jostr r.description),
   ("payerMail", jostr r.payerMail),
   ("payerName", jostr r.payerName),
   ("pans", joarr r.pans),
   ("nationalCode", jostr r.nationalCode),
   ("sharedValue", jarr r.sharedValue),
   ("sheba", jarr r.sheba)]

/-- JSON body of `bill` (object literal, lines 562-578, revision 2). -/
def billBody (cfg : Config) (r : BillRequest) : JBody :=
  [("invoice", jstr r.invoice),
   ("invoiceDate", jstr r.invoiceDate),
   ("amount", jnum r.amount),
   ("mobileNumber", jstr r.mobileNumber),
   ("callbackApi", jstr r.callbackApi),
   ("terminalNumber", jnum cfg.terminalNumber),
   ("serviceCode", jstr "4"),
   ("serviceType", jstr "BILL"),
   ("description", jostr r.description),
   ("payerMail", jostr r.payerMail),
   ("payerName", jostr r.payerName),
   ("pans", joarr r.pans),
   ("nationalCode", jostr r.nationalCode),
   ("billId", jstr r.billId),
   ("paymentId", jstr r.paymentId)]

/-- The `switch (operator)` of `directCharge` (lines 611-624): MCI, MTN,
RTL map to service codes 1, 2, 3; the `default` branch leaves
`serviceCode` undefined. -/
def directChargeServiceCode (o : Int) : Option String :=
  if o == Operator.MCI then some "1"
  else if o == Operator.MTN then some "2"
  else if o == Operator.RTL then some "3"
  else none

/-- The `switch (operator)` of `pinCharge` (lines 675-688): MCI, MTN,
RTL map to service codes 5, 6, 7; the `default` branch leaves
`serviceCode` undefined. -/
def pinChargeServiceCode (o : Int) : Option String :=
  if o == Operator.MCI then some "5"
  else if o == Operator.MTN then some "6"
  else if o == Operator.RTL then some "7"
  else none

/-- The `switch (operator)` of `internetCharge` (lines 740-753): MCI,
MTN, RTL map to service codes 1, 2, 3; the `default` branch leaves
`serviceCode` undefined. -/
def internetChargeServiceCode (o : Int) : Option String :=
  if o == Operator.MCI then some "1"
  else if o == Operator.MTN then some "2"
  else if o == Operator.RTL then some "3"
  else none

/-- JSON body of `directCharge` (object literal, lines 627-641;
`serviceType` is `operator.toString()`, the numeric enum rendered as a
decimal string). -/
def directChargeBody (cfg : Config) (r : DirectChargeRequest) : JBody :=
  [("invoice", jstr r.invoice),
   ("invoiceDate", jstr r.invoiceDate),
   ("amount", jnum r.amount),
   ("mobileNumber", jstr r.mobileNumber),
   ("callbackApi", jstr r.callbackApi),
   ("terminalNumber", jnum cfg.terminalNumber),
   ("serviceCode", jostr (directChargeServiceCode r.operator)),
   ("serviceType", jstr (toString r.operator)),
   ("description", jostr r.description),
   ("payerMail", jostr r.payerMail),
   ("payerName", jostr r.payerName),
   ("pans", joarr r.pans),
   ("nationalCode", jostr r.nationalCode)]

/-- JSON body of `pinCharge` (object literal, lines 691-706;
`serviceType` is `operator.toString() + '-PIN'`). -/
def pinChargeBody (cfg : Config) (r : PinChargeRequest) : JBody :=
  [("invoice", jstr r.invoice),
   ("invoiceDate", jstr r.invoiceDate),
   ("amount", jnum r.amount),
   ("mobileNumber", jstr r.mobileNumber),
   ("callbackApi", jstr r.callbackApi),
   ("terminalNumber", jnum cfg.terminalNumber),
   ("serviceCode", jostr (pinChargeServiceCode r.operator)),
   ("serviceType", jstr (toString r.operator ++ "-PIN")),
   ("description", jostr r.description),
   ("payerMail", jostr r.payerMail),
   ("payerName", jostr r.payerName),
   ("pans", joarr r.pans),
   ("nationalCode", jostr r.nationalCode),
   ("count", jnum r.count)]

/-- JSON body of `internetCharge` (object literal, lines 756-771). -/
def internetChargeBody (cfg : Config) (r : InternetChargeRequest) : JBody :=
  [("invoice", jstr r.invoice),
   ("invoiceDate", jstr r.invoiceDate),
   ("amount", jnum r.amount),
   ("mobileNumber", jstr r.mobileNumber),
   ("callbackApi", jstr r.callbackApi),
   ("terminalNumber", jnum cfg.terminalNumber),
   ("serviceCode", jostr (internetChargeServiceCode r.operator)),
   ("serviceType", jstr (toString r.operator)),
   ("description", jostr r.description),
   ("payerMail", jostr r.payerMail),
   ("payerName", jostr r.payerName),
   ("pans", joarr r.pans),
   ("nationalCode", jostr r.nationalCode),
   ("productCode", jstr r.productCode)]

/-- JSON body of `confirm` (object literal, lines 231-234): only the
caller's `invoice` and `urlId`, no fixed constants. -/
def confirmBody (r : ConfirmRequest) : JBody :=
  [("invoice", jstr r.invoice),
   ("urlId", jstr r.urlId)]

/-- Embedding of `purchase` (lines 123-170, identical in both revisions). -/
def purchase (st : ClientState) (now : Nat) (authT : AuthTransport)
    (opT : OpTransport PurchaseData) (r : PurchaseRequest) : OpResult PurchaseData :=
  runOp st now authT opT "Purchase" (st.config.baseUrl ++ "/api/payment/purchase")
    (purchaseBody st.config r)

/-- Embedding of `multiAccPurchase` (lines 172-221, identical in both
revisions). -/
def multiAccPurchase (st : ClientState) (now : Nat) (authT : AuthTransport)
    (opT : OpTransport PurchaseData) (r : MultiAccPurchaseRequest) : OpResult PurchaseData :=
  runOp st now authT opT "MultiAccPurchase" (st.config.baseUrl ++ "/api/payment/purchase")
    (multiAccPurchaseBody st.config r)

/-- Embedding of `bill` (lines 544-593, revision 2 only). -/
def bill (st : ClientState) (now : Nat) (authT : AuthTransport)
    (opT : OpTransport String) (r : BillRequest) : OpResult String :=
  runOp st now authT opT "Bill" (st.config.baseUrl ++ "/api/payment/pre-transaction")
    (billBody st.config r)

/-- Embedding of `directCharge` (lines 595-656, revision 2 only). -/
def directCharge (st : ClientState) (now : Nat) (authT : AuthTransport)
    (opT : OpTransport String) (r : DirectChargeRequest) : OpResult String :=
  runOp st now authT opT "Direct Charge" (st.config.baseUrl ++ "/api/payment/pre-transaction")
    (directChargeBody st.config r)

/-- Embedding of `pinCharge` (lines 658-721, revision 2 only). -/
def pinCharge (st : ClientState) (now : Nat) (authT : AuthTransport)
    (opT : OpTransport String) (r : PinChargeRequest) : OpResult String :=
  runOp st now authT opT "PIN Charge" (st.config.baseUrl ++ "/api/payment/pre-transaction")
    (pinChargeBody st.config r)

/-- Embedding of `internetCharge` (lines 723-786, revision 2 only). -/
def internetCharge (st : ClientState) (now : Nat) (authT : AuthTransport)
    (opT : OpTransport String) (r : InternetChargeRequest) : OpResult String :=
  runOp st now authT opT "Internet Charge" (st.config.baseUrl ++ "/api/payment/pre-transaction")
    (internetChargeBody st.config r)

/-- Embedding of `confirm` as it appears in revision 1 (lines 223-249):
its failure branch calls `throwError('Purchase', res.data)` — the label
is `'Purchase'`, not the name of the invoked operation. -/
def confirmV1 (st : ClientState) (now : Nat) (authT : AuthTransport)
    (opT : OpTransport ConfirmData) (r : ConfirmRequest) : OpResult ConfirmData :=
  runOp st now authT opT "Purchase" (st.config.baseUrl ++ "/api/payment/confirm-transactions")
    (confirmBody r)

/-- Embedding of `confirm` as it appears in revision 2 (lines 788-814):
its failure branch calls `throwError('Confirm', res.data)`. -/
def confirm (st : ClientState) (now : Nat) (authT : AuthTransport)
    (opT : OpTransport ConfirmData) (r : ConfirmRequest) : OpResult ConfirmData :=
  runOp st now authT opT "Confirm" (st.config.baseUrl ++ "/api/payment/confirm-transactions")
    (confirmBody r)

/-- Boolean error test on a settled promise. -/
def isError {ε α : Type} : Except ε α → Bool
  | Except.error _ => true
  | Except.ok _ => false

/-- Sample configuration used by concrete witnesses. -/
def cfg0 : Config :=
  { baseUrl := "https://gw", terminalNumber := 12345678, username := "u", password := "p" }

/-- Sample client state holding a token valid until instant 1000. -/
def stCached : ClientState :=
  { config := cfg0, cachedToken := "TOK", tokenExpiry := 1000 }

/-- Sample purchase request used by concrete witnesses. -/
def req0 : PurchaseRequest :=
  { invoice := "INV-001", invoiceDate := "1404/08/28", amount := 100000
    callbackApi := "https://cb", mobileNumber := "09123456789"
    description := none, payerMail := none, payerName := none
    pans := none, nationalCode := none, paymentCode := none }

theorem authenticate_cache_hit (st : ClientState) (now : Nat) (t : AuthTransport)
    (h : cacheValid st now = true) :
    authenticate st now t =
      { request := none, result := Except.ok st.cachedToken, state := st } := by
  simp [authenticate, h]

theorem cacheValid_true_iff (st : ClientState) (now : Nat) :
    cacheValid st now = true ↔ st.cachedToken ≠ "" ∧ now < st.tokenExpiry := by
  simp [cacheValid]

theorem authenticate_transport_err (st : ClientState) (now : Nat) (e : String)
    (h : cacheValid st now = false) :
    authenticate st now (Except.error e) =
      { request := some (authSentOf st)
        result := Except.error (AuthErr.transport e), state := st } := by
  simp [authenticate, h]

theorem authenticate_fresh (st : ClientState) (now : Nat) (res : AuthResponse)
    (tok : String) (h : cacheValid st now = false)
    (hcode : res.resultCode = 0) (htok : res.token = some tok) (hne : tok ≠ "") :
    authenticate st now (Except.ok res) =
      { request := some (authSentOf st)
        result := Except.ok tok
        state := { st with cachedToken := tok, tokenExpiry := now + fiveMinutesMs } } := by
  simp [authenticate, h, tokenPresent, hcode, htok, hne]

theorem authenticate_api_err (st : ClientState) (now : Nat) (res : AuthResponse)
    (h : cacheValid st now = false)
    (hbad : ¬(res.resultCode = 0 ∧ tokenPresent res.token = true)) :
    authenticate st now (Except.ok res) =
      { request := some (authSentOf st)
        result := Except.error (AuthErr.api "getToken" res), state := st } := by
  have hb : (res.resultCode == 0 && tokenPresent res.token) = false := by
    rcases Decidable.not_and_iff_or_not.mp hbad with h1 | h1 <;>
      simp [h1, Bool.and_eq_false_iff]
  simp [authenticate, h, hb]

theorem runOp_auth_ok {α : Type} (st : ClientState) (now : Nat) (authT : AuthTransport)
    (opT : OpTransport α) (name path : String) (body : JBody)
    (areq : Option AuthSent) (tok : String) (st' : ClientState)
    (h : authenticate st now authT = { request := areq, result := Except.ok tok, state := st' }) :
    runOp st now authT opT name path body =
      { authRequest := areq
        opRequest := some { path := path, token := tok, body := body }
        result := opSettle name opT
        state := st' } := by
  simp [runOp, h]

theorem runOp_auth_err {α : Type} (st : ClientState) (now : Nat) (authT : AuthTransport)
    (opT : OpTransport α) (name path : String) (body : JBody)
    (areq : Option AuthSent) (e : AuthErr) (st' : ClientState)
    (h : authenticate st now authT = { request := areq, result := Except.error e, state := st' }) :
    runOp st now authT opT name path body =
      { authRequest := areq, opRequest := none
        result := Except.error (OpError.auth e), state := st' } := by
  simp [runOp, h]

theorem authenticate_eta (st : ClientState) (now : Nat) (authT : AuthTransport) :
    authenticate st now authT =
      { request := (authenticate st now authT).request
        result := (authenticate st now authT).result
        state := (authenticate st now authT).state } := rfl

/-- C1: for every operation call (and every direct `authenticate` call)
made while a cached token exists and the current instant is strictly
before the recorded expiry, the cached token is returned, no
authentication request is issued, and the operation places the cached
token in its Authorization header. -/
theorem C1_cached_token_reused (st : ClientState) (now : Nat) (t : AuthTransport)
    (hTok : st.cachedToken ≠ "") (hExp : now < st.tokenExpiry) :
    authenticate st now t =
      { request := none, result := Except.ok st.cachedToken, state := st } ∧
    ∀ (α : Type) (opT : OpTransport α) (name path : String) (body : JBody),
      (runOp st now t opT name path body).authRequest = none ∧
      (runOp st now t opT name path body).opRequest =
        some { path := path, token := st.cachedToken, body := body } := by
  have hv : cacheValid st now = true := (cacheValid_true_iff st now).mpr ⟨hTok, hExp⟩
  have ha := authenticate_cache_hit st now t hv
  refine ⟨ha, ?_⟩
  intro α opT name path body
  rw [runOp_auth_ok st now t opT name path body none st.cachedToken st ha]
  exact ⟨rfl, rfl⟩

/-- Witness for C1 at a concrete cached state and a transport oracle
that would fail if it were consulted. -/
theorem C1_cached_token_reused_w :
    authenticate stCached 5 (Except.error "down") =
      { request := none, result := Except.ok "TOK", state := stCached } ∧
    (runOp stCached 5 (Except.error "down")
        (Except.error "down" : OpTransport PurchaseData)
        "Purchase" "https://gw/api/payment/purchase" (purchaseBody cfg0 req0)).authRequest
      = none :=
  ⟨(C1_cached_token_reused stCached 5 (Except.error "down") (by decide) (by decide)).1,
   ((C1_cached_token_reused stCached 5 (Except.error "down") (by decide) (by decide)).2
      PurchaseData (Except.error "down") "Purchase" "https://gw/api/payment/purchase"
      (purchaseBody cfg0 req0)).1⟩

/-- Successful authentication response that carries an explicit expiry
field, which the source never reads. -/
def authRespWithExpiry : AuthResponse :=
  { resultMsg := "ok", resultCode := 0, token := some "FRESH", expireAt := some 999999999 }

/-- C2 counterexample: a successful authentication response carrying an
explicit expiry (`expireAt = 999999999`) still gets its cache entry
stamped issuance + 5 minutes — the gateway-supplied expiry is ignored
(the destructuring at line 108 reads only `resultCode` and `token`),
contrary to the claim that the stored expiry is the gateway-supplied one
when the response carries it.  The fallback window itself behaves as
claimed: valid strictly before issuance + 5 minutes, invalid from that
instant on. -/
theorem C2_gateway_expiry_ignored :
    (authenticate (mkClient cfg0) 1000 (Except.ok authRespWithExpiry)).state.tokenExpiry
      = 1000 + fiveMinutesMs ∧
    1000 + fiveMinutesMs ≠ 999999999 ∧
    cacheValid (authenticate (mkClient cfg0) 1000 (Except.ok authRespWithExpiry)).state
      (1000 + fiveMinutesMs - 1) = true ∧
    cacheValid (authenticate (mkClient cfg0) 1000 (Except.ok authRespWithExpiry)).state
      (1000 + fiveMinutesMs) = false := by
  decide

/-- C3: `authenticate` rejects exactly when no valid cache entry exists
and the call fails in transport, returns a non-zero result code, or
returns success without a (nonempty) token; every rejection carries the
transport error or the raw response body, and leaves the cached
`(token, expiry)` pair exactly as it was. -/
theorem C3_auth_reject_iff (st : ClientState) (now : Nat) (t : AuthTransport) :
    (isError (authenticate st now t).result = true ↔
      cacheValid st now = false ∧
        ∀ res : AuthResponse, t = Except.ok res →
          ¬(res.resultCode = 0 ∧ tokenPresent res.token = true)) ∧
    (isError (authenticate st now t).result = true → (authenticate st now t).state = st) ∧
    (∀ e, t = Except.error e → cacheValid st now = false →
      (authenticate st now t).result = Except.error (AuthErr.transport e)) ∧
    (∀ res, t = Except.ok res → cacheValid st now = false →
      ¬(res.resultCode = 0 ∧ tokenPresent res.token = true) →
      (authenticate st now t).result = Except.error (AuthErr.api "getToken" res)) := by
  by_cases hv : cacheValid st now = true
  · rw [authenticate_cache_hit st now t hv]
    simp [isError, hv]
  · rw [Bool.not_eq_true] at hv
    cases t with
    | error e =>
      rw [authenticate_transport_err st now e hv]
      refine ⟨?_, fun _ => rfl, ?_, ?_⟩
      · simp [isError, hv]
      · intro e' he'
        injection he' with h
        subst h
        exact fun _ => rfl
      · intro res hres
        exact absurd hres (by simp)
    | ok res =>
      by_cases hc : res.resultCode = 0 ∧ tokenPresent res.token = true
      · obtain ⟨h0, hp⟩ := hc
        obtain ⟨tok, htok, hne⟩ : ∃ tok, res.token = some tok ∧ tok ≠ "" := by
          cases h : res.token with
          | none => rw [h] at hp; simp [tokenPresent] at hp
          | some s =>
            rw [h] at hp
            exact ⟨s, rfl, by simpa [tokenPresent] using hp⟩
        rw [authenticate_fresh st now res tok hv h0 htok hne]
        refine ⟨⟨fun hclose => ?_, fun hrhs => ?_⟩, fun hclose => ?_, ?_, ?_⟩
        · simp [isError] at hclose
        · exact absurd ⟨h0, hp⟩ (hrhs.2 res rfl)
        · simp [isError] at hclose
        · intro e' he'
          exact absurd he' (by simp)
        · intro res' hres' _ hbad
          injection hres' with h
          subst h
          exact absurd ⟨h0, hp⟩ hbad
      · rw [authenticate_api_err st now res hv hc]
        refine ⟨⟨fun _ => ⟨hv, ?_⟩, fun _ => by simp [isError]⟩, fun _ => rfl, ?_, ?_⟩
        · intro res' hres'
          injection hres' with h
          subst h
          exact hc
        · intro e' he'
          exact absurd he' (by simp)
        · intro res' hres' _ _
          injection hres' with h
          subst h
          rfl

/-- Witness for C3: a fresh client with an unreachable authentication
endpoint rejects with the transport error. -/
theorem C3_auth_reject_iff_w :
    (authenticate (mkClient cfg0) 5 (Except.error "down")).result =
      Except.error (AuthErr.transport "down") :=
  (C3_auth_reject_iff (mkClient cfg0) 5 (Except.error "down")).2.2.1 "down" rfl (by decide)

theorem runOp_authRequest_eq {α : Type} (st : ClientState) (now : Nat)
    (authT : AuthTransport) (opT : OpTransport α) (name path : String) (body : JBody) :
    (runOp st now authT opT name path body).authRequest =
      (authenticate st now authT).request := by
  rw [runOp]
  cases h : (authenticate st now authT).result <;> simp [h]

theorem runOp_state_eq {α : Type} (st : ClientState) (now : Nat)
    (authT : AuthTransport) (opT : OpTransport α) (name path : String) (body : JBody) :
    (runOp st now authT opT name path body).state = (authenticate st now authT).state := by
  rw [runOp]
  cases h : (authenticate st now authT).result <;> simp [h]

theorem authenticate_miss_request (st : ClientState) (now : Nat) (t : AuthTransport)
    (hv : cacheValid st now = false) :
    (authenticate st now t).request = some (authSentOf st) := by
  unfold authenticate
  simp only [hv, Bool.false_eq_true, if_false]
  cases t with
  | error e => rfl
  | ok res => dsimp only; split <;> rfl

theorem authenticate_state_config (st : ClientState) (now : Nat) (t : AuthTransport) :
    (authenticate st now t).state.config = st.config := by
  unfold authenticate
  split
  · rfl
  · cases t with
    | error e => rfl
    | ok res => dsimp only; split <;> rfl

/-- C5: for every operation call issued after the cached token's expiry
has passed or while no token has ever been cached, exactly one
authentication request is issued; when it succeeds it precedes the
operation's own HTTP call in the trace and the token it yields is the
one placed in the Authorization header, and when it fails no operation
call is issued at all. -/
theorem C5_refresh_precedes (st : ClientState) (now : Nat) (authT : AuthTransport)
    (h : st.cachedToken = "" ∨ st.tokenExpiry ≤ now) :
    ∀ (α : Type) (opT : OpTransport α) (name path : String) (body : JBody),
      (runOp st now authT opT name path body).authRequest = some (authSentOf st) ∧
      (∀ res tok, authT = Except.ok res → res.resultCode = 0 →
        res.token = some tok → tok ≠ "" →
        (runOp st now authT opT name path body).opRequest =
          some { path := path, token := tok, body := body } ∧
        (runOp st now authT opT name path body).trace =
          [Sum.inl (authSentOf st),
           Sum.inr { path := path, token := tok, body := body }]) ∧
      (∀ e, authT = Except.error e →
        (runOp st now authT opT name path body).opRequest = none) := by
  have hv : cacheValid st now = false := by
    simp only [cacheValid, Bool.and_eq_false_iff]
    rcases h with h | h
    · left; simp [h]
    · right; simpa using Nat.not_lt.mpr h
  intro α opT name path body
  refine ⟨?_, ?_, ?_⟩
  · rw [runOp_authRequest_eq]
    exact authenticate_miss_request st now authT hv
  · intro res tok hres hcode htok hne
    subst hres
    have ha := authenticate_fresh st now res tok hv hcode htok hne
    rw [runOp_auth_ok st now (Except.ok res) opT name path body
      (some (authSentOf st)) tok _ ha]
    exact ⟨rfl, rfl⟩
  · intro e he
    subst he
    have ha := authenticate_transport_err st now e hv
    rw [runOp_auth_err st now (Except.error e) opT name path body
      (some (authSentOf st)) (AuthErr.transport e) st ha]

/-- Witness for C5: a fresh client refreshing against a gateway that
grants token "FRESH", then issuing a purchase request bearing it. -/
theorem C5_refresh_precedes_w :
    (runOp (mkClient cfg0) 5 (Except.ok authRespWithExpiry)
        (Except.error "later" : OpTransport PurchaseData) "Purchase"
        "https://gw/api/payment/purchase" (purchaseBody cfg0 req0)).authRequest
      = some (authSentOf (mkClient cfg0)) ∧
    (runOp (mkClient cfg0) 5 (Except.ok authRespWithExpiry)
        (Except.error "later" : OpTransport PurchaseData) "Purchase"
        "https://gw/api/payment/purchase" (purchaseBody cfg0 req0)).opRequest
      = some { path := "https://gw/api/payment/purchase", token := "FRESH"
               body := purchaseBody cfg0 req0 } := by
  have h := C5_refresh_precedes (mkClient cfg0) 5 (Except.ok authRespWithExpiry)
    (Or.inl rfl) PurchaseData (Except.error "later") "Purchase"
    "https://gw/api/payment/purchase" (purchaseBody cfg0 req0)
  exact ⟨h.1, (h.2.1 authRespWithExpiry "FRESH" rfl (by decide) (by decide) (by decide)).1⟩

/-- C4, evaluated at its failing input: revision 1's `confirm` rejects a
`resultCode = 2` envelope with the label `'Purchase'` (line 244), not
the name of the invoked operation — revision 2's `confirm` (line 809)
passes `'Confirm'`, as every other method passes its own name. -/
theorem C4_confirmV1_wrong_label :
    (confirmV1 stCached 5 (Except.error "unused")
      (Except.ok (some { resultMsg := "insufficient funds", resultCode := 2, data := none }))
      { invoice := "INV-001", urlId := "U1" }).result
      = Except.error (OpError.api "Purchase"
          (some { resultMsg := "insufficient funds", resultCode := 2, data := none })) ∧
    (confirm stCached 5 (Except.error "unused")
      (Except.ok (some { resultMsg := "insufficient funds", resultCode := 2, data := none }))
      { invoice := "INV-001", urlId := "U1" }).result
      = Except.error (OpError.api "Confirm"
          (some { resultMsg := "insufficient funds", resultCode := 2, data := none })) := by
  decide

/-- C6: the operator values MCI, MTN, RTL map to service codes 1/2/3 in
`directCharge`, 5/6/7 in `pinCharge` and 1/2/3 in `internetCharge`; for
every operator value outside the enumeration no service code is
assigned, the requests carry the `serviceCode` key unset, and the charge
calls still issue their gateway request. -/
theorem C6_operator_service_codes :
    (directChargeServiceCode Operator.MCI = some "1" ∧
     directChargeServiceCode Operator.MTN = some "2" ∧
     directChargeServiceCode Operator.RTL = some "3") ∧
    (pinChargeServiceCode Operator.MCI = some "5" ∧
     pinChargeServiceCode Operator.MTN = some "6" ∧
     pinChargeServiceCode Operator.RTL = some "7") ∧
    (internetChargeServiceCode Operator.MCI = some "1" ∧
     internetChargeServiceCode Operator.MTN = some "2" ∧
     internetChargeServiceCode Operator.RTL = some "3") ∧
    (∀ o : Int, o ≠ Operator.MCI → o ≠ Operator.MTN → o ≠ Operator.RTL →
      directChargeServiceCode o = none ∧ pinChargeServiceCode o = none ∧
      internetChargeServiceCode o = none) ∧
    (∀ (cfg : Config) (rd : DirectChargeRequest) (rp : PinChargeRequest)
       (ri : InternetChargeRequest),
      ("serviceCode", jostr (directChargeServiceCode rd.operator)) ∈ directChargeBody cfg rd ∧
      ("serviceCode", jostr (pinChargeServiceCode rp.operator)) ∈ pinChargeBody cfg rp ∧
      ("serviceCode", jostr (internetChargeServiceCode ri.operator)) ∈ internetChargeBody cfg ri) ∧
    (∀ (st : ClientState) (now : Nat) (authT : AuthTransport) (tok : String)
       (areq : Option AuthSent) (st' : ClientState),
      authenticate st now authT = { request := areq, result := Except.ok tok, state := st' } →
      (∀ (opT : OpTransport String) (r : DirectChargeRequest),
        (directCharge st now authT opT r).opRequest =
          some { path := st.config.baseUrl ++ "/api/payment/pre-transaction"
                 token := tok, body := directChargeBody st.config r }) ∧
      (∀ (opT : OpTransport String) (r : PinChargeRequest),
        (pinCharge st now authT opT r).opRequest =
          some { path := st.config.baseUrl ++ "/api/payment/pre-transaction"
                 token := tok, body := pinChargeBody st.config r }) ∧
      (∀ (opT : OpTransport String) (r : InternetChargeRequest),
        (internetCharge st now authT opT r).opRequest =
          some { path := st.config.baseUrl ++ "/api/payment/pre-transaction"
                 token := tok, body := internetChargeBody st.config r })) := by
  refine ⟨by decide, by decide, by decide, ?_, ?_, ?_⟩
  · intro o h1 h2 h3
    have h1' : (o == Operator.MCI) = false := beq_eq_false_iff_ne.mpr h1
    have h2' : (o == Operator.MTN) = false := beq_eq_false_iff_ne.mpr h2
    have h3' : (o == Operator.RTL) = false := beq_eq_false_iff_ne.mpr h3
    exact ⟨by simp [directChargeServiceCode, h1', h2', h3'],
      by simp [pinChargeServiceCode, h1', h2', h3'],
      by simp [internetChargeServiceCode, h1', h2', h3']⟩
  · intro cfg rd rp ri
    refine ⟨?_, ?_, ?_⟩ <;> simp [directChargeBody, pinChargeBody, internetChargeBody]
  · intro st now authT tok areq st' h
    refine ⟨?_, ?_, ?_⟩ <;> intro opT r
    · rw [directCharge, runOp_auth_ok st now authT opT "Direct Charge"
        (st.config.baseUrl ++ "/api/payment/pre-transaction")
        (directChargeBody st.config r) areq tok st' h]
    · rw [pinCharge, runOp_auth_ok st now authT opT "PIN Charge"
        (st.config.baseUrl ++ "/api/payment/pre-transaction")
        (pinChargeBody st.config r) areq tok st' h]
    · rw [internetCharge, runOp_auth_ok st now authT opT "Internet Charge"
        (st.config.baseUrl ++ "/api/payment/pre-transaction")
        (internetChargeBody st.config r) areq tok st' h]

/-- Witness for C6 at operator value 99, outside the enumeration. -/
theorem C6_operator_service_codes_w :
    directChargeServiceCode 99 = none ∧ pinChargeServiceCode 99 = none ∧
    internetChargeServiceCode 99 = none :=
  C6_operator_service_codes.2.2.2.1 99 (by decide) (by decide) (by decide)

/-- C7 counterexample: at the `confirm` operation the claim fails — the
body sent to the gateway is exactly the caller's two fields and carries
no terminal number, no service code and no service type. -/
theorem C7_confirm_lacks_constants :
    (confirm stCached 5 (Except.error "unused")
      (Except.ok (some { resultMsg := "ok", resultCode := 0, data := none }))
      { invoice := "INV-001", urlId := "U1" }).opRequest =
      some { path := "https://gw/api/payment/confirm-transactions", token := "TOK"
             body := confirmBody { invoice := "INV-001", urlId := "U1" } } ∧
    (confirmBody { invoice := "INV-001", urlId := "U1" }).map Prod.fst =
      ["invoice", "urlId"] ∧
    List.lookup "terminalNumber" (confirmBody { invoice := "INV-001", urlId := "U1" }) = none ∧
    List.lookup "serviceCode" (confirmBody { invoice := "INV-001", urlId := "U1" }) = none ∧
    List.lookup "serviceType" (confirmBody { invoice := "INV-001", urlId := "U1" }) = none := by
  decide

set_option maxHeartbeats 1600000 in
/-- C7 (amended): the six payment-product operations — purchase,
multi-account purchase, bill, direct charge, PIN charge, internet
charge — send the merge of the fixed operation constants (configured
terminal number, service code, service type) with the caller's fields;
`confirm` sends only the caller's `invoice` and `urlId`, with no fixed
constants. -/
theorem C7_body_merge (st : ClientState) (now : Nat) (authT : AuthTransport)
    (tok : String) (areq : Option AuthSent) (st' : ClientState)
    (h : authenticate st now authT = { request := areq, result := Except.ok tok, state := st' }) :
    (∀ (opT : OpTransport PurchaseData) (r : PurchaseRequest),
      (purchase st now authT opT r).opRequest =
        some { path := st.config.baseUrl ++ "/api/payment/purchase"
               token := tok, body := purchaseBody st.config r } ∧
      [("terminalNumber", jnum st.config.terminalNumber), ("serviceCode", jstr "8"),
       ("serviceType", jstr "PURCHASE"), ("invoice", jstr r.invoice),
       ("invoiceDate", jstr r.invoiceDate), ("amount", jnum r.amount),
       ("mobileNumber", jstr r.mobileNumber), ("callbackApi", jstr r.callbackApi),
       ("description", jostr r.description), ("payerMail", jostr r.payerMail),
       ("payerName", jostr r.payerName), ("pans", joarr r.pans),
       ("nationalCode", jostr r.nationalCode), ("paymentCode", jostr r.paymentCode)]
        ⊆ purchaseBody st.config r) ∧
    (∀ (opT : OpTransport PurchaseData) (r : MultiAccPurchaseRequest),
      (multiAccPurchase st now authT opT r).opRequest =
        some { path := st.config.baseUrl ++ "/api/payment/purchase"
               token := tok, body := multiAccPurchaseBody st.config r } ∧
      [("terminalNumber", jnum st.config.terminalNumber), ("serviceCode", jstr "9"),
       ("serviceType", jstr "MULTIACCPURCHASE"), ("invoice", jstr r.invoice),
       ("invoiceDate", jstr r.invoiceDate), ("amount", jnum r.amount),
       ("mobileNumber", jstr r.mobileNumber), ("callbackApi", jstr r.callbackApi),
       ("description", jostr r.description), ("payerMail", jostr r.payerMail),
       ("payerName", jostr r.payerName), ("pans", joarr r.pans),
       ("nationalCode", jostr r.nationalCode), ("sharedValue", jarr r.sharedValue),
       ("sheba", jarr r.sheba)]
        ⊆ multiAccPurchaseBody st.config r) ∧
    (∀ (opT : OpTransport String) (r : BillRequest),
      (bill st now authT opT r).opRequest =
        some { path := st.config.baseUrl ++ "/api/payment/pre-transaction"
               token := tok, body := billBody st.config r } ∧
      [("terminalNumber", jnum st.config.terminalNumber), ("serviceCode", jstr "4"),
       ("serviceType", jstr "BILL"), ("invoice", jstr r.invoice),
       ("invoiceDate", jstr r.invoiceDate), ("amount", jnum r.amount),
       ("mobileNumber", jstr r.mobileNumber), ("callbackApi", jstr r.callbackApi),
       ("description", jostr r.description), ("payerMail", jostr r.payerMail),
       ("payerName", jostr r.payerName), ("pans", joarr r.pans),
       ("nationalCode", jostr r.nationalCode), ("billId", jstr r.billId),
       ("paymentId", jstr r.paymentId)]
        ⊆ billBody st.config r) ∧
    (∀ (opT : OpTransport String) (r : DirectChargeRequest),
      (directCharge st now authT opT r).opRequest =
        some { path := st.config.baseUrl ++ "/api/payment/pre-transaction"
               token := tok, body := directChargeBody st.config r } ∧
      [("terminalNumber", jnum st.config.terminalNumber),
       ("serviceCode", jostr (directChargeServiceCode r.operator)),
       ("serviceType", jstr (toString r.operator)), ("invoice", jstr r.invoice),
       ("invoiceDate", jstr r.invoiceDate), ("amount", jnum r.amount),
       ("mobileNumber", jstr r.mobileNumber), ("callbackApi", jstr r.callbackApi),
       ("description", jostr r.description), ("payerMail", jostr r.payerMail),
       ("payerName", jostr r.payerName), ("pans", joarr r.pans),
       ("nationalCode", jostr r.nationalCode)]
        ⊆ directChargeBody st.config r) ∧
    (∀ (opT : OpTransport String) (r : PinChargeRequest),
      (pinCharge st now authT opT r).opRequest =
        some { path := st.config.baseUrl ++ "/api/payment/pre-transaction"
               token := tok, body := pinChargeBody st.config r } ∧
      [("terminalNumber", jnum st.config.terminalNumber),
       ("serviceCode", jostr (pinChargeServiceCode r.operator)),
       ("serviceType", jstr (toString r.operator ++ "-PIN")), ("invoice", jstr r.invoice),
       ("invoiceDate", jstr r.invoiceDate), ("amount", jnum r.amount),
       ("mobileNumber", jstr r.mobileNumber), ("callbackApi", jstr r.callbackApi),
       ("description", jostr r.description), ("payerMail", jostr r.payerMail),
       ("payerName", jostr r.payerName), ("pans", joarr r.pans),
       ("nationalCode", jostr r.nationalCode), ("count", jnum r.count)]
        ⊆ pinChargeBody st.config r) ∧
    (∀ (opT : OpTransport String) (r : InternetChargeRequest),
      (internetCharge st now authT opT r).opRequest =
        some { path := st.config.baseUrl ++ "/api/payment/pre-transaction"
               token := tok, body := internetChargeBody st.config r } ∧
      [("terminalNumber", jnum st.config.terminalNumber),
       ("serviceCode", jostr (internetChargeServiceCode r.operator)),
       ("serviceType", jstr (toString r.operator)), ("invoice", jstr r.invoice),
       ("invoiceDate", jstr r.invoiceDate), ("amount", jnum r.amount),
       ("mobileNumber", jstr r.mobileNumber), ("callbackApi", jstr r.callbackApi),
       ("description", jostr r.description), ("payerMail", jostr r.payerMail),
       ("payerName", jostr r.payerName), ("pans", joarr r.pans),
       ("nationalCode", jostr r.nationalCode), ("productCode", jstr r.productCode)]
        ⊆ internetChargeBody st.config r) ∧
    (∀ (opT : OpTransport ConfirmData) (r : ConfirmRequest),
      (confirm st now authT opT r).opRequest =
        some { path := st.config.baseUrl ++ "/api/payment/confirm-transactions"
               token := tok, body := confirmBody r } ∧
      confirmBody r = [("invoice", jstr r.invoice), ("urlId", jstr r.urlId)]) := by
  refine ⟨?_, ?_, ?_, ?_, ?_, ?_, ?_⟩ <;> intro opT r
  · exact ⟨by rw [purchase, runOp_auth_ok st now authT opT "Purchase"
      (st.config.baseUrl ++ "/api/payment/purchase") (purchaseBody st.config r)
      areq tok st' h], by simp [purchaseBody]⟩
  · exact ⟨by rw [multiAccPurchase, runOp_auth_ok st now authT opT "MultiAccPurchase"
      (st.config.baseUrl ++ "/api/payment/purchase") (multiAccPurchaseBody st.config r)
      areq tok st' h], by simp [multiAccPurchaseBody]⟩
  · exact ⟨by rw [bill, runOp_auth_ok st now authT opT "Bill"
      (st.config.baseUrl ++ "/api/payment/pre-transaction") (billBody st.config r)
      areq tok st' h], by simp [billBody]⟩
  · exact ⟨by rw [directCharge, runOp_auth_ok st now authT opT "Direct Charge"
      (st.config.baseUrl ++ "/api/payment/pre-transaction") (directChargeBody st.config r)
      areq tok st' h], by simp [directChargeBody]⟩
  · exact ⟨by rw [pinCharge, runOp_auth_ok st now authT opT "PIN Charge"
      (st.config.baseUrl ++ "/api/payment/pre-transaction") (pinChargeBody st.config r)
      areq tok st' h], by simp [pinChargeBody]⟩
  · exact ⟨by rw [internetCharge, runOp_auth_ok st now authT opT "Internet Charge"
      (st.config.baseUrl ++ "/api/payment/pre-transaction") (internetChargeBody st.config r)
      areq tok st' h], by simp [internetChargeBody]⟩
  · exact ⟨by rw [confirm, runOp_auth_ok st now authT opT "Confirm"
      (st.config.baseUrl ++ "/api/payment/confirm-transactions") (confirmBody r)
      areq tok st' h], rfl⟩

/-- Witness for C7's amended theorem at a concrete cached client. -/
theorem C7_body_merge_w :
    (purchase stCached 5 (Except.error "unused")
      (Except.error "later" : OpTransport PurchaseData) req0).opRequest =
      some { path := "https://gw/api/payment/purchase", token := "TOK"
             body := purchaseBody cfg0 req0 } :=
  ((C7_body_merge stCached 5 (Except.error "unused") "TOK" none stCached
      (by decide)).1 (Except.error "later") req0).1

/-- Modelled from the spec: result shape of the two verification-style
operations, which are absent from `src/` (only the README and the spec
document them).  As `OpResult`, except that success resolves with the
WHOLE envelope (spec 4.2: "or, for two specific verification-style
operations, the whole envelope"). -/
structure OpResultW (α : Type) where
  authRequest : Option AuthSent
  opRequest : Option SentRequest
  result : Except (OpError α) (Envelope α)
  state : ClientState
deriving Repr, DecidableEq

/-- Modelled from the spec: the shared shape of the verification-style
operations — identical to `runOp` but the success branch returns the
whole envelope rather than its `data` field. -/
def runOpWhole {α : Type} (st : ClientState) (now : Nat) (authT : AuthTransport)
    (opT : OpTransport α) (name path : String) (body : JBody) : OpResultW α :=
  let a := authenticate st now authT
  match a.result with
  | Except.error e =>
    { authRequest := a.request, opRequest := none
      result := Except.error (OpError.auth e), state := a.state }
  | Except.ok tok =>
    { authRequest := a.request
      opRequest := some { path := path, token := tok, body := body }
      result :=
        match opT with
        | Except.error e => Except.error (OpError.transport e)
        | Except.ok none => Except.error (OpError.api name none)
        | Except.ok (some env) =>
          if env.resultCode == 0 then Except.ok env
          else Except.error (OpError.api name (some env))
      state := a.state }

/-- Modelled from the spec: `verifyTransaction`, the simple-envelope
verification, absent from `src/` — spec 6 table row "Verify (simple)":
path `/api/payment/verify-transactions`, body `invoice`/`urlId`; spec 9:
"`verifyTransaction` returning the simple envelope". -/
def verifyTransaction (st : ClientState) (now : Nat) (authT : AuthTransport)
    (opT : OpTransport String) (r : ConfirmRequest) : OpResultW String :=
  runOpWhole st now authT opT "VerifyTransaction"
    (st.config.baseUrl ++ "/api/payment/verify-transactions") (confirmBody r)

/-- Modelled from the spec: `verify`, the detailed-envelope verification,
absent from `src/` — spec 6 table row "Verify (detailed)": path
`/api/payment/verify-payment`, body `invoice`/`urlId`; spec 9: "`verify`
returning the detailed envelope". -/
def verify (st : ClientState) (now : Nat) (authT : AuthTransport)
    (opT : OpTransport ConfirmData) (r : ConfirmRequest) : OpResultW ConfirmData :=
  runOpWhole st now authT opT "Verify"
    (st.config.baseUrl ++ "/api/payment/verify-payment") (confirmBody r)

/-- Modelled from the spec: `reverse`, the reversal operation, absent
from `src/` — spec 6 table row "Reverse": path
`/api/payment/reverse-transactions`, body `invoice`/`urlId`, response
`{resultCode, resultMsg}` (no data payload). -/
def reverse (st : ClientState) (now : Nat) (authT : AuthTransport)
    (opT : OpTransport Unit) (r : ConfirmRequest) : OpResult Unit :=
  runOp st now authT opT "Reverse"
    (st.config.baseUrl ++ "/api/payment/reverse-transactions") (confirmBody r)

theorem runOpWhole_auth_ok {α : Type} (st : ClientState) (now : Nat) (authT : AuthTransport)
    (opT : OpTransport α) (name path : String) (body : JBody)
    (areq : Option AuthSent) (tok : String) (st' : ClientState)
    (h : authenticate st now authT = { request := areq, result := Except.ok tok, state := st' }) :
    runOpWhole st now authT opT name path body =
      { authRequest := areq
        opRequest := some { path := path, token := tok, body := body }
        result :=
          match opT with
          | Except.error e => Except.error (OpError.transport e)
          | Except.ok none => Except.error (OpError.api name none)
          | Except.ok (some env) =>
            if env.resultCode == 0 then Except.ok env
            else Except.error (OpError.api name (some env))
        state := st' } := by
  simp [runOpWhole, h]

/-- C8: the client surface contains two distinct verification operations
— `verifyTransaction` at `/api/payment/verify-transactions` and `verify`
at `/api/payment/verify-payment` — and a `reverse` operation at
`/api/payment/reverse-transactions`; on a success envelope the two
verification operations resolve with the whole envelope, not its `data`
field. -/
theorem C8_verify_reverse_surface (st : ClientState) (now : Nat) (authT : AuthTransport)
    (tok : String) (areq : Option AuthSent) (st' : ClientState)
    (h : authenticate st now authT = { request := areq, result := Except.ok tok, state := st' }) :
    (∀ (opT : OpTransport String) (r : ConfirmRequest),
      (verifyTransaction st now authT opT r).opRequest =
        some { path := st.config.baseUrl ++ "/api/payment/verify-transactions"
               token := tok, body := confirmBody r }) ∧
    (∀ (opT : OpTransport ConfirmData) (r : ConfirmRequest),
      (verify st now authT opT r).opRequest =
        some { path := st.config.baseUrl ++ "/api/payment/verify-payment"
               token := tok, body := confirmBody r }) ∧
    (∀ (opT : OpTransport Unit) (r : ConfirmRequest),
      (reverse st now authT opT r).opRequest =
        some { path := st.config.baseUrl ++ "/api/payment/reverse-transactions"
               token := tok, body := confirmBody r }) ∧
    (∀ (r : ConfirmRequest) (env : Envelope String), env.resultCode = 0 →
      (verifyTransaction st now authT (Except.ok (some env)) r).result = Except.ok env) ∧
    (∀ (r : ConfirmRequest) (env : Envelope ConfirmData), env.resultCode = 0 →
      (verify st now authT (Except.ok (some env)) r).result = Except.ok env) ∧
    ("/api/payment/verify-transactions" : String) ≠ "/api/payment/verify-payment" := by
  refine ⟨?_, ?_, ?_, ?_, ?_, by decide⟩
  · intro opT r
    rw [verifyTransaction, runOpWhole_auth_ok st now authT opT "VerifyTransaction"
      (st.config.baseUrl ++ "/api/payment/verify-transactions") (confirmBody r) areq tok st' h]
  · intro opT r
    rw [verify, runOpWhole_auth_ok st now authT opT "Verify"
      (st.config.baseUrl ++ "/api/payment/verify-payment") (confirmBody r) areq tok st' h]
  · intro opT r
    rw [reverse, runOp_auth_ok st now authT opT "Reverse"
      (st.config.baseUrl ++ "/api/payment/reverse-transactions") (confirmBody r) areq tok st' h]
  · intro r env henv
    rw [verifyTransaction, runOpWhole_auth_ok st now authT (Except.ok (some env))
      "VerifyTransaction" (st.config.baseUrl ++ "/api/payment/verify-transactions")
      (confirmBody r) areq tok st' h]
    simp [henv]
  · intro r env henv
    rw [verify, runOpWhole_auth_ok st now authT (Except.ok (some env))
      "Verify" (st.config.baseUrl ++ "/api/payment/verify-payment")
      (confirmBody r) areq tok st' h]
    simp [henv]

/-- Witness for C8 at a concrete cached client and success envelope. -/
theorem C8_verify_reverse_surface_w :
    (verifyTransaction stCached 5 (Except.error "unused")
      (Except.ok (some { resultMsg := "done", resultCode := 0, data := some "D" }))
      { invoice := "INV-001", urlId := "U1" }).result =
      Except.ok { resultMsg := "done", resultCode := 0, data := some "D" } :=
  (C8_verify_reverse_surface stCached 5 (Except.error "unused") "TOK" none stCached
      (by decide)).2.2.2.1 { invoice := "INV-001", urlId := "U1" }
    { resultMsg := "done", resultCode := 0, data := some "D" } (by decide)

/-- C9: a response envelope with `resultCode == 0` but no `data` field
resolves successfully with an absent value rather than rejecting — the
success branch returns the envelope's `data` field without validating
its presence; stated for the shared operation shape and for `purchase`
and `confirm` in particular. -/
theorem C9_missing_data_resolves (st : ClientState) (now : Nat) (authT : AuthTransport)
    (tok : String) (areq : Option AuthSent) (st' : ClientState)
    (h : authenticate st now authT = { request := areq, result := Except.ok tok, state := st' }) :
    (∀ (α : Type) (name path : String) (body : JBody) (m : String),
      (runOp st now authT
        (Except.ok (some { resultMsg := m, resultCode := 0, data := (none : Option α) }))
        name path body).result = Except.ok none) ∧
    (∀ (r : PurchaseRequest) (m : String),
      (purchase st now authT
        (Except.ok (some { resultMsg := m, resultCode := 0, data := none })) r).result =
        Except.ok none) ∧
    (∀ (r : ConfirmRequest) (m : String),
      (confirm st now authT
        (Except.ok (some { resultMsg := m, resultCode := 0, data := none })) r).result =
        Except.ok none) := by
  refine ⟨?_, ?_, ?_⟩
  · intro α name path body m
    rw [runOp_auth_ok st now authT _ name path body areq tok st' h]
    simp [opSettle]
  · intro r m
    rw [purchase, runOp_auth_ok st now authT _ "Purchase"
      (st.config.baseUrl ++ "/api/payment/purchase") (purchaseBody st.config r)
      areq tok st' h]
    simp [opSettle]
  · intro r m
    rw [confirm, runOp_auth_ok st now authT _ "Confirm"
      (st.config.baseUrl ++ "/api/payment/confirm-transactions") (confirmBody r)
      areq tok st' h]
    simp [opSettle]

/-- Witness for C9: a concrete purchase whose success envelope has no
data payload resolves with an absent value. -/
theorem C9_missing_data_resolves_w :
    (purchase stCached 5 (Except.error "unused")
      (Except.ok (some { resultMsg := "ok", resultCode := 0, data := none })) req0).result =
      Except.ok none :=
  (C9_missing_data_resolves stCached 5 (Except.error "unused") "TOK" none stCached
      (by decide)).2.1 req0 "ok"

theorem authenticate_err_state (st : ClientState) (now : Nat) (t : AuthTransport) :
    isError (authenticate st now t).result = true → (authenticate st now t).state = st := by
  unfold authenticate
  split
  · intro hcl
    simp [isError] at hcl
  · cases t with
    | error e => intro _; rfl
    | ok res =>
      dsimp only
      split
      · intro hcl
        simp [isError] at hcl
      · intro _; rfl

/-- C10: no method mutates any client state other than the cache pair —
the configuration is never written after construction; every operation
changes state exactly as its inner `authenticate` call does; and
`authenticate` leaves the state untouched on a cache hit and on every
failure, overwriting the `(cachedToken, tokenExpiry)` pair only in its
success branch. -/
theorem C10_frame (st : ClientState) (now : Nat) (authT : AuthTransport) :
    (authenticate st now authT).state.config = st.config ∧
    (∀ (α : Type) (opT : OpTransport α) (name path : String) (body : JBody),
      (runOp st now authT opT name path body).state = (authenticate st now authT).state) ∧
    (cacheValid st now = true → (authenticate st now authT).state = st) ∧
    (isError (authenticate st now authT).result = true →
      (authenticate st now authT).state = st) ∧
    (∀ res tok, authT = Except.ok res → cacheValid st now = false →
      res.resultCode = 0 → res.token = some tok → tok ≠ "" →
      (authenticate st now authT).state =
        { config := st.config, cachedToken := tok, tokenExpiry := now + fiveMinutesMs }) ∧
    (∀ (opT : OpTransport PurchaseData) (r : PurchaseRequest),
      (purchase st now authT opT r).state = (authenticate st now authT).state) ∧
    (∀ (opT : OpTransport PurchaseData) (r : MultiAccPurchaseRequest),
      (multiAccPurchase st now authT opT r).state = (authenticate st now authT).state) ∧
    (∀ (opT : OpTransport String) (r : BillRequest),
      (bill st now authT opT r).state = (authenticate st now authT).state) ∧
    (∀ (opT : OpTransport String) (r : DirectChargeRequest),
      (directCharge st now authT opT r).state = (authenticate st now authT).state) ∧
    (∀ (opT : OpTransport String) (r : PinChargeRequest),
      (pinCharge st now authT opT r).state = (authenticate st now authT).state) ∧
    (∀ (opT : OpTransport String) (r : InternetChargeRequest),
      (internetCharge st now authT opT r).state = (authenticate st now authT).state) ∧
    (∀ (opT : OpTransport ConfirmData) (r : ConfirmRequest),
      (confirm st now authT opT r).state = (authenticate st now authT).state ∧
      (confirmV1 st now authT opT r).state = (authenticate st now authT).state) := by
  refine ⟨authenticate_state_config st now authT,
    fun α opT name path body => runOp_state_eq st now authT opT name path body,
    ?_, authenticate_err_state st now authT, ?_, ?_, ?_, ?_, ?_, ?_, ?_, ?_⟩
  · intro hv
    rw [authenticate_cache_hit st now authT hv]
  · intro res tok hres hv hcode htok hne
    subst hres
    rw [authenticate_fresh st now res tok hv hcode htok hne]
  · intro opT r
    rw [purchase]
    exact runOp_state_eq st now authT opT "Purchase" _ _
  · intro opT r
    rw [multiAccPurchase]
    exact runOp_state_eq st now authT opT "MultiAccPurchase" _ _
  · intro opT r
    rw [bill]
    exact runOp_state_eq st now authT opT "Bill" _ _
  · intro opT r
    rw [directCharge]
    exact runOp_state_eq st now authT opT "Direct Charge" _ _
  · intro opT r
    rw [pinCharge]
    exact runOp_state_eq st now authT opT "PIN Charge" _ _
  · intro opT r
    rw [internetCharge]
    exact runOp_state_eq st now authT opT "Internet Charge" _ _
  · intro opT r
    constructor
    · rw [confirm]
      exact runOp_state_eq st now authT opT "Confirm" _ _
    · rw [confirmV1]
      exact runOp_state_eq st now authT opT "Purchase" _ _

/-- Witness for C10: the success branch at a concrete fresh client
overwrites exactly the cache pair, keeping the configuration. -/
theorem C10_frame_w :
    (authenticate (mkClient cfg0) 1000 (Except.ok authRespWithExpiry)).state =
      { config := cfg0, cachedToken := "FRESH", tokenExpiry := 1000 + fiveMinutesMs } :=
  (C10_frame (mkClient cfg0) 1000 (Except.ok authRespWithExpiry)).2.2.2.2.1
    authRespWithExpiry "FRESH" rfl (by decide) (by decide) (by decide) (by decide)

/-- C2 (amended): on every successful authentication the stored expiry
is exactly the instant of issuance plus 5 minutes, regardless of any
gateway-supplied expiry field in the response; the resulting cache entry
is valid strictly before that instant and invalid from it on. -/
theorem C2_expiry_always_five_minutes (st : ClientState) (now : Nat)
    (res : AuthResponse) (tok : String) (hv : cacheValid st now = false)
    (hcode : res.resultCode = 0) (htok : res.token = some tok) (hne : tok ≠ "") :
    (authenticate st now (Except.ok res)).state.tokenExpiry = now + fiveMinutesMs ∧
    (∀ later, later < now + fiveMinutesMs →
      cacheValid (authenticate st now (Except.ok res)).state later = true) ∧
    (∀ later, now + fiveMinutesMs ≤ later →
      cacheValid (authenticate st now (Except.ok res)).state later = false) := by
  rw [authenticate_fresh st now res tok hv hcode htok hne]
  refine ⟨rfl, ?_, ?_⟩
  · intro later hl
    simp [cacheValid, hne, hl]
  · intro later hl
    simp only [cacheValid, Bool.and_eq_false_iff]
    right
    simp only [decide_eq_false_iff_not]
    omega

/-- Witness for the amended C2 at a fresh client and a response that
even carries an explicit expiry field. -/
theorem C2_expiry_always_five_minutes_w :
    (authenticate (mkClient cfg0) 1000 (Except.ok authRespWithExpiry)).state.tokenExpiry
      = 1000 + fiveMinutesMs :=
  (C2_expiry_always_five_minutes (mkClient cfg0) 1000 authRespWithExpiry "FRESH"
    (by decide) (by decide) (by decide) (by decide)).1
